import Mathlib

set_option synthInstance.maxSize 1024

/-!
Verification development for the Webscale address-set integration
(`src/Webscale_integration.py`).

The program is a thin HTTP client (`Client`, lines 8-75) plus command
functions (lines 82-188).  We embed it shallowly:

* JSON objects become association lists `JObj` (string keys to string
  values); the decoded member collection of a set is a `List JObj`.
* The remote service is a `Service` value: the data the server would
  return for each endpoint.  Executing a request against the service is
  explicit state passing; a PATCH replaces the stored member collection
  (the server-side semantics is modelled from the spec, see
  `Client.get_address_set_add_member`).
* Every HTTP request a function issues is returned in an explicit
  `List Request` trace, so "issues no PATCH" is a statement about the
  trace.
* Python runtime failures (KeyError on `item['address']`, TypeError on a
  call with missing positional arguments, AttributeError on a missing
  method) become `Except PyError` results.

String helpers model the exact Python operations used by the source:
`str.lower` (ASCII case mapping, which is all the needles exercised) and
the substring operator `in`.
-/

namespace Webscale

/-- A decoded JSON object with string-valued fields, as an association
list in field order. -/
abbrev JObj := List (String × String)

/-- Python `item[k]` on a decoded JSON object: `some v` when the key is
present, `none` when the access would raise KeyError. -/
def getField (o : JObj) (k : String) : Option String :=
  (o.find? fun p => p.1 == k).map fun p => p.2

/-- Python runtime errors that the source can raise. -/
inductive PyError where
  | keyError
  | typeError
  | attributeError
deriving DecidableEq

/-- HTTP method of a request issued by the client. -/
inductive Method where
  | GET
  | PATCH
deriving DecidableEq

/-- One HTTP request as built by `Client._http_request` calls in the
source: method, URL suffix, optional `json_data` body (an object whose
fields hold arrays of entry objects, matching `{"entries": entries}`),
and the headers attached to the request. -/
structure Request where
  method : Method
  path : String
  jsonData : Option (List (String × List JObj))
  headers : List (String × String)
deriving DecidableEq

/-- The remote service's state: the data it would serve for each
endpoint.  Modelled from the spec: the server itself is not part of the
repository; §4.1 and §6 fix what each endpoint returns and that PATCH
replaces the set's full entry collection. -/
structure Service where
  sets : List JObj
  configs : String → JObj
  members : String → List JObj

/-- `Client.__init__` (source lines 9-15): stores `base_url` and
`api_key`. -/
structure Client where
  base_url : String
  api_key : String

/-- The headers `Client.__init__` leaves in `self._headers` (source
lines 14-15): the Authorization bearer header when `self.api_key` is
truthy (a non-empty string), nothing otherwise.  Modelled from the spec:
`BaseClient._http_request` (framework code, not in src/) attaches
`self._headers` to every outgoing request (§4.1: "All requests attach an
`Authorization: Bearer <api_key>` header when an API key is configured;
when absent, requests are sent unauthenticated"). -/
def Client.headers (c : Client) : List (String × String) :=
  if c.api_key = "" then [] else [("Authorization", "Bearer " ++ c.api_key)]

/-- `Client.get_address_sets` (source lines 17-28): GET `/address-sets`;
returns the decoded response together with the request issued. -/
def Client.get_address_sets (c : Client) (svc : Service) :
    List JObj × Request :=
  (svc.sets, ⟨Method.GET, "/address-sets", none, c.headers⟩)

/-- `Client.get_address_set` (source lines 30-43): GET
`/address-sets/{id}`. -/
def Client.get_address_set (c : Client) (svc : Service) (id : String) :
    JObj × Request :=
  (svc.configs id, ⟨Method.GET, "/address-sets/" ++ id, none, c.headers⟩)

/-- `Client.get_address_set_members` (source lines 45-58): GET
`/address-sets/{id}/addresses`. -/
def Client.get_address_set_members (c : Client) (svc : Service) (id : String) :
    List JObj × Request :=
  (svc.members id,
    ⟨Method.GET, "/address-sets/" ++ id ++ "/addresses", none, c.headers⟩)

/-- `Client.get_address_set_add_member` (source lines 60-75): PATCH
`/address-sets/{id}` with `json_data={"entries": entries}`.  The
`address` parameter is accepted but, as in the source, never used in the
request.  Modelled from the spec for the server side: the PATCH replaces
the server's view of the set's full entry collection with the supplied
collection and the response confirms the updated configuration (§4.1
`PatchMembers`). -/
def Client.get_address_set_add_member (c : Client) (svc : Service)
    (id : String) (address : String) (entries : List JObj) :
    List JObj × Service × Request :=
  (entries,
   { svc with members := fun i => if i = id then entries else svc.members i },
   ⟨Method.PATCH, "/address-sets/" ++ id, some [("entries", entries)],
     c.headers⟩)

/-- The value a command function hands back to the host: we keep the
`raw_response` payload (the `readable_output` table rendering is host
display plumbing, out of the core per spec §1). -/
structure CommandResults where
  raw_response : List JObj
deriving DecidableEq

deriving instance DecidableEq for Except

/-- The scan loop of `get_address_set_is_member_command` (source lines
146-151): `is_member = False; for item in response: if item['address'] ==
address: is_member = True`.  The loop never breaks; a missing
`'address'` key raises KeyError at the entry where it happens. -/
def memberScan (address : String) : List JObj → Bool → Except PyError Bool
  | [], acc => Except.ok acc
  | item :: rest, acc =>
    match getField item "address" with
    | none => Except.error PyError.keyError
    | some a => memberScan address rest (acc || (a == address))

/-- `get_address_set_is_member_command` (source lines 144-152): fetches
the member collection and runs the scan loop.  Returns the boolean (or
the propagated error) together with the requests issued. -/
def get_address_set_is_member_command (c : Client) (svc : Service)
    (id : String) (address : String) :
    Except PyError Bool × List Request :=
  let g := c.get_address_set_members svc id
  (memberScan address g.1 false, [g.2])

/-- `get_address_set_is_blocked_command` (source lines 155-157): returns
`get_address_set_is_member_command(client, id, address)` unmodified. -/
def get_address_set_is_blocked_command (c : Client) (svc : Service)
    (id : String) (address : String) :
    Except PyError Bool × List Request :=
  get_address_set_is_member_command c svc id address

/-- `get_address_set_is_throttled_command` (source lines 160-162):
returns `get_address_set_is_member_command(client, id, address)`
unmodified. -/
def get_address_set_is_throttled_command (c : Client) (svc : Service)
    (id : String) (address : String) :
    Except PyError Bool × List Request :=
  get_address_set_is_member_command c svc id address

/-- The entry literal built at source lines 170-173.  As written the
construct `entry=("address": f"(address)", "description": "Added by
Cortex XSOAR")` is not valid Python (a dict written with parentheses);
we embed its evident structure, a two-field object, with the values
exactly as written: the f-string `f"(address)"` contains no replacement
field — parentheses, not braces — so the address field is the literal
text `"(address)"`, not the supplied address.  The `address` parameter
is in scope but unused, as in the source. -/
def newEntry (address : String) : JObj :=
  [("address", "(address)"), ("description", "Added by Cortex XSOAR")]

/-- `get_address_set_members_command` (source lines 133-141), modelled
at its first failure point: its body first evaluates
`client.get_address_set_member(id)`, and class `Client` defines no
method of that name (only `get_address_set_members`), so the call raises
AttributeError before any request is issued.  (The body below that line
is itself malformed: line 138 juxtaposes `readable` and a
`CommandResults(...)` call, and the function returns no value.) -/
def get_address_set_members_command (c : Client) (svc : Service)
    (id : String) (address : String) :
    Except PyError CommandResults × List Request :=
  (Except.error PyError.attributeError, [])

/-- `get_address_set_add_member_command` (source lines 165-188).
If the membership check returns False: re-fetch the member collection,
append `newEntry`, PATCH the result, and return a `CommandResults` whose
`raw_response` is the PATCH response.  If it returns True: the source
prints a message and evaluates
`get_address_set_members_command(client, id)` — a call that supplies two
of that function's three required positional parameters (`client, id,
address`, line 133), so Python raises TypeError at the call site, before
the callee body runs.  Errors from the membership check propagate.
Result: the command's return value (or error), the service state after
the call, and the requests issued in order. -/
def get_address_set_add_member_command (c : Client) (svc : Service)
    (id : String) (address : String) :
    Except PyError CommandResults × Service × List Request :=
  let m := get_address_set_is_member_command c svc id address
  match m.1 with
  | Except.error e => (Except.error e, svc, m.2)
  | Except.ok true => (Except.error PyError.typeError, svc, m.2)
  | Except.ok false =>
    let g := c.get_address_set_members svc id
    let entries := g.1 ++ [newEntry address]
    let p := c.get_address_set_add_member svc id address entries
    (Except.ok { raw_response := p.1 }, p.2.1, m.2 ++ [g.2, p.2.2])

/-- Python `str.lower` on one character, for the ASCII range the source's
needles live in. -/
def pyLowerChar (c : Char) : Char :=
  if 65 ≤ c.toNat && c.toNat ≤ 90 then Char.ofNat (c.toNat + 32) else c

/-- Python `str.lower`. -/
def pyLower (s : String) : String := ⟨s.data.map pyLowerChar⟩

/-- Does the character list start with the given needle? -/
def startsWithList : List Char → List Char → Bool
  | _, [] => true
  | [], _ :: _ => false
  | h :: hs, n :: ns => h == n && startsWithList hs ns

/-- Substring containment on character lists. -/
def containsList (hay nd : List Char) : Bool :=
  match hay with
  | [] => nd.isEmpty
  | h :: t => startsWithList (h :: t) nd || containsList t nd

/-- Python `needle in haystack` on strings. -/
def pyIn (needle haystack : String) : Bool :=
  containsList haystack.data needle.data

/-- Case-insensitive substring containment, the relation the spec's
error-classification rule speaks of. -/
def ciContains (haystack needle : String) : Bool :=
  pyIn (pyLower needle) (pyLower haystack)

/-- The remediation string returned at source line 105. -/
def authErrorMessage : String :=
  "Authorization Error: make sure API Key is correctly set"

/-- `test_module` (source lines 82-108), parametrised by the outcome of
the `client.get_address_sets()` call it wraps: on success it returns
`'ok'`; on an exception `e` it lowercases `str(e)` and, when that text
contains `'forbidden'` or `'authorization'`, returns the remediation
string, otherwise re-raises `e`. -/
def test_module (r : Except String (List JObj)) : Except String String :=
  match r with
  | Except.ok _ => Except.ok "ok"
  | Except.error e =>
    if pyIn "forbidden" (pyLower e) || pyIn "authorization" (pyLower e)
    then Except.ok authErrorMessage
    else Except.error e

/-- A concrete client used by the concrete-scenario theorems. -/
def client0 : Client := { base_url := "https://api.example.com", api_key := "testkey" }

/-- The spec §8 scenario service: set `blocklist-1` holds the single
entry `{"address": "1.2.3.4"}`. -/
def svcBlocklist : Service :=
  { sets := [[("id", "blocklist-1")]]
    configs := fun _ => []
    members := fun i =>
      if i = "blocklist-1" then [[("address", "1.2.3.4")]] else [] }

/-- First `AddMemberIfAbsent("blocklist-1", "5.6.7.8")` call of the
spec §8 scenario. -/
def addCall1 : Except PyError CommandResults × Service × List Request :=
  get_address_set_add_member_command client0 svcBlocklist "blocklist-1" "5.6.7.8"

/-- The service state after `addCall1`. -/
def svcAfter1 : Service := addCall1.2.1

/-- Second `AddMemberIfAbsent("blocklist-1", "5.6.7.8")` call, run on the
state `addCall1` left behind. -/
def addCall2 : Except PyError CommandResults × Service × List Request :=
  get_address_set_add_member_command client0 svcAfter1 "blocklist-1" "5.6.7.8"

/-- `AddMemberIfAbsent("blocklist-1", "1.2.3.4")` on the scenario
service: the queried address is already a member. -/
def addCallNoop : Except PyError CommandResults × Service × List Request :=
  get_address_set_add_member_command client0 svcBlocklist "blocklist-1" "1.2.3.4"

/-! ## Helper lemmas about the membership scan -/

/-- When every entry carries an `address` field the scan loop is total
and computes the disjunction of the accumulator with "some entry's
address equals the queried address". -/
theorem memberScan_eq (address : String) (items : List JObj)
    (h : ∀ e ∈ items, (getField e "address").isSome) (acc : Bool) :
    memberScan address items acc =
      Except.ok (acc || items.any fun e => getField e "address" == some address) := by
  induction items generalizing acc with
  | nil => simp [memberScan]
  | cons x xs ih =>
    obtain ⟨a, ha⟩ := Option.isSome_iff_exists.mp (h x (List.mem_cons_self x xs))
    have hrest : ∀ e ∈ xs, (getField e "address").isSome :=
      fun e he => h e (List.mem_cons_of_mem x he)
    simp only [memberScan, ha, ih hrest, List.any_cons]
    congr 1
    simp [ha, Bool.or_assoc]

/-- The scan loop does not break out early: whatever the accumulator
already holds, an entry without an `address` field at the end of the
collection still raises KeyError. -/
theorem memberScan_append_missing (address : String) (items : List JObj)
    (h : ∀ e ∈ items, (getField e "address").isSome) (bad : JObj)
    (hbad : getField bad "address" = none) (acc : Bool) :
    memberScan address (items ++ [bad]) acc = Except.error PyError.keyError := by
  induction items generalizing acc with
  | nil => simp [memberScan, hbad]
  | cons x xs ih =>
    obtain ⟨a, ha⟩ := Option.isSome_iff_exists.mp (h x (List.mem_cons_self x xs))
    simp only [List.cons_append, memberScan, ha]
    exact ih (fun e he => h e (List.mem_cons_of_mem x he)) _

/-! ## Claim theorems -/

/-- Claim C3: membership query correctness.  For every set id and
address, `get_address_set_is_member_command` returns true iff some entry
of the member collection has `address` field equal (exact string match)
to the queried address, and returns false when the collection is
exhausted with no match, the empty collection included. -/
theorem is_member_correct (c : Client) (svc : Service) (id address : String)
    (h : ∀ e ∈ svc.members id, (getField e "address").isSome) :
    ((get_address_set_is_member_command c svc id address).1 = Except.ok true ↔
      ∃ e ∈ svc.members id, getField e "address" = some address) ∧
    ((get_address_set_is_member_command c svc id address).1 = Except.ok false ↔
      ¬ ∃ e ∈ svc.members id, getField e "address" = some address) := by
  have hcmd : (get_address_set_is_member_command c svc id address).1 =
      memberScan address (svc.members id) false := rfl
  rw [hcmd, memberScan_eq address (svc.members id) h false]
  constructor
  · simp [List.any_eq_true]
  · simp [List.any_eq_false]

/-- Witness for C3 at the spec §8 scenario set: `"1.2.3.4"` is a member,
`"5.6.7.8"` is not. -/
theorem is_member_correct_witness :
    (get_address_set_is_member_command client0 svcBlocklist "blocklist-1" "1.2.3.4").1 =
      Except.ok true ∧
    (get_address_set_is_member_command client0 svcBlocklist "blocklist-1" "5.6.7.8").1 =
      Except.ok false :=
  ⟨((is_member_correct client0 svcBlocklist "blocklist-1" "1.2.3.4" (by decide)).1).mpr
      (by decide),
   ((is_member_correct client0 svcBlocklist "blocklist-1" "5.6.7.8" (by decide)).2).mpr
      (by decide)⟩

/-- Claim C10: under the precondition that every element of the member
collection is a mapping containing the key `address`, the membership
scan never fails and its result equals existence of a matching entry,
regardless of match position or multiplicity; and the scan examines
every entry with no short-circuit — even when a match has already been
found, an appended entry lacking the key still raises KeyError. -/
theorem member_scan_total_no_short_circuit (c : Client) (svc : Service)
    (id address : String)
    (h : ∀ e ∈ svc.members id, (getField e "address").isSome) :
    ((get_address_set_is_member_command c svc id address).1 =
      Except.ok (decide (∃ e ∈ svc.members id, getField e "address" = some address))) ∧
    (∀ bad : JObj, getField bad "address" = none →
      ∀ svc2 : Service, svc2.members id = svc.members id ++ [bad] →
        (get_address_set_is_member_command c svc2 id address).1 =
          Except.error PyError.keyError) := by
  constructor
  · have hcmd : (get_address_set_is_member_command c svc id address).1 =
        memberScan address (svc.members id) false := rfl
    rw [hcmd, memberScan_eq address (svc.members id) h false]
    congr 1
    rw [Bool.eq_iff_iff]
    simp [List.any_eq_true]
  · intro bad hbad svc2 h2
    have hcmd : (get_address_set_is_member_command c svc2 id address).1 =
        memberScan address (svc2.members id) false := rfl
    rw [hcmd, h2]
    exact memberScan_append_missing address (svc.members id) h bad hbad false

/-- An ill-formed service used only to witness the no-short-circuit part
of C10: the second entry of the collection has no `address` key. -/
def svcBad : Service :=
  { svcBlocklist with
    members := fun i =>
      if i = "blocklist-1"
      then [[("address", "1.2.3.4")], [("note", "no address key")]]
      else [] }

/-- Witness for C10: on the scenario set the scan returns the decided
existence, and with a keyless entry appended after the matching one the
scan still reaches it and raises KeyError. -/
theorem member_scan_total_witness :
    (get_address_set_is_member_command client0 svcBlocklist "blocklist-1" "1.2.3.4").1 =
      Except.ok (decide (∃ e ∈ svcBlocklist.members "blocklist-1",
        getField e "address" = some "1.2.3.4")) ∧
    (get_address_set_is_member_command client0 svcBad "blocklist-1" "1.2.3.4").1 =
      Except.error PyError.keyError :=
  ⟨(member_scan_total_no_short_circuit client0 svcBlocklist "blocklist-1" "1.2.3.4"
      (by decide)).1,
   (member_scan_total_no_short_circuit client0 svcBlocklist "blocklist-1" "1.2.3.4"
      (by decide)).2 [("note", "no address key")] (by decide) svcBad (by decide)⟩

/-- Claim C6: pure aliasing.  For every client, service state, set id
and address, the blocked and throttled commands return exactly the
result of the member command — same value and same requests issued, so
no other effect is performed. -/
theorem is_blocked_is_throttled_alias (c : Client) (svc : Service)
    (id address : String) :
    get_address_set_is_blocked_command c svc id address =
      get_address_set_is_member_command c svc id address ∧
    get_address_set_is_throttled_command c svc id address =
      get_address_set_is_member_command c svc id address :=
  ⟨rfl, rfl⟩

/-- Claim C7: whenever the underlying `get_address_sets` call succeeds,
`test_module` returns exactly the literal string `"ok"`. -/
theorem test_module_success (v : List JObj) :
    test_module (Except.ok v) = Except.ok "ok" := rfl

/-- Claim C5: authentication-error rewrite.  A failure whose text
contains `"forbidden"` or `"authorization"` case-insensitively makes
`test_module` return (not raise) the remediation string, which mentions
"API Key"; a failure containing neither substring is re-raised
unchanged. -/
theorem test_module_error_classification (e : String) :
    ((ciContains e "forbidden" = true ∨ ciContains e "authorization" = true) →
      test_module (Except.error e) = Except.ok authErrorMessage ∧
        pyIn "API Key" authErrorMessage = true) ∧
    (ciContains e "forbidden" = false → ciContains e "authorization" = false →
      test_module (Except.error e) = Except.error e) := by
  have hf : ciContains e "forbidden" = pyIn "forbidden" (pyLower e) := by
    unfold ciContains
    rw [show pyLower "forbidden" = "forbidden" from by decide]
  have ha : ciContains e "authorization" = pyIn "authorization" (pyLower e) := by
    unfold ciContains
    rw [show pyLower "authorization" = "authorization" from by decide]
  constructor
  · intro h
    have hcond : (pyIn "forbidden" (pyLower e) || pyIn "authorization" (pyLower e)) = true := by
      rcases h with h | h
      · rw [hf] at h; simp [h]
      · rw [ha] at h; simp [h]
    exact ⟨by simp [test_module, hcond], by decide⟩
  · intro h1 h2
    rw [hf] at h1
    rw [ha] at h2
    simp [test_module, h1, h2]

/-- Witness for C5: the spec's simulated failure `"403 Forbidden"` is
rewritten to the API-Key remediation string, and a failure mentioning
neither needle is re-raised unchanged. -/
theorem test_module_error_classification_witness :
    test_module (Except.error "403 Forbidden") = Except.ok authErrorMessage ∧
      pyIn "API Key" authErrorMessage = true ∧
      test_module (Except.error "connection timed out") =
        Except.error "connection timed out" :=
  ⟨((test_module_error_classification "403 Forbidden").1 (Or.inl (by decide))).1,
   ((test_module_error_classification "403 Forbidden").1 (Or.inl (by decide))).2,
   (test_module_error_classification "connection timed out").2 (by decide) (by decide)⟩

/-- Claim C8: with a non-empty API key the stored headers are exactly
the bearer Authorization header; with an empty key no Authorization
header is present; and every request built by the four client
operations carries exactly the stored headers. -/
theorem auth_header (c : Client) (svc : Service) (id address : String)
    (entries : List JObj) :
    (c.api_key ≠ "" →
      c.headers = [("Authorization", "Bearer " ++ c.api_key)]) ∧
    (c.api_key = "" → ∀ p ∈ c.headers, p.1 ≠ "Authorization") ∧
    (c.get_address_sets svc).2.headers = c.headers ∧
    (c.get_address_set svc id).2.headers = c.headers ∧
    (c.get_address_set_members svc id).2.headers = c.headers ∧
    (c.get_address_set_add_member svc id address entries).2.2.headers = c.headers := by
  refine ⟨fun h => ?_, fun h p hp => ?_, rfl, rfl, rfl, rfl⟩
  · unfold Client.headers
    rw [if_neg h]
  · unfold Client.headers at hp
    rw [if_pos h] at hp
    exact absurd hp (List.not_mem_nil p)

/-- Witness for C8: a client with key `"testkey"` stores exactly the
bearer header; a client with an empty key stores no Authorization
header. -/
theorem auth_header_witness :
    client0.headers = [("Authorization", "Bearer testkey")] ∧
      ∀ p ∈ (Client.mk "https://api.example.com" "").headers,
        p.1 ≠ "Authorization" :=
  ⟨(auth_header client0 svcBlocklist "i" "a" []).1 (by decide),
   (auth_header (Client.mk "https://api.example.com" "") svcBlocklist "i" "a" []).2.1 rfl⟩

/-- Claim C9: `Client.get_address_set_add_member` issues exactly one
request, a PATCH to `/address-sets/{id}` whose JSON body is
`{"entries": <the supplied collection>}`, and returns the decoded
response, which is the server's updated member configuration for the
set. -/
theorem patch_members_request_shape (c : Client) (svc : Service)
    (id address : String) (entries : List JObj) :
    (c.get_address_set_add_member svc id address entries).2.2.method = Method.PATCH ∧
    (c.get_address_set_add_member svc id address entries).2.2.path =
      "/address-sets/" ++ id ∧
    (c.get_address_set_add_member svc id address entries).2.2.jsonData =
      some [("entries", entries)] ∧
    (c.get_address_set_add_member svc id address entries).1 =
      ((c.get_address_set_add_member svc id address entries).2.1).members id := by
  refine ⟨rfl, rfl, rfl, ?_⟩
  show entries = if id = id then entries else svc.members id
  rw [if_pos rfl]

/-- Claim C2 fails on the code: in the spec §8 scenario, the PATCH body
appended by `get_address_set_add_member_command` ends with the entry
`{"address": "(address)", "description": "Added by Cortex XSOAR"}` — its
address field is the literal text of the mistaken f-string
`f"(address)"`, not the supplied `"5.6.7.8"`, and after the call the set
holds no entry whose address is `"5.6.7.8"`. -/
theorem add_member_appends_wrong_entry :
    addCall1.1 = Except.ok { raw_response :=
      [[("address", "1.2.3.4")],
       [("address", "(address)"), ("description", "Added by Cortex XSOAR")]] } ∧
    (∃ r ∈ addCall1.2.2, r.method = Method.PATCH ∧
      r.jsonData = some [("entries",
        [[("address", "1.2.3.4")],
         [("address", "(address)"), ("description", "Added by Cortex XSOAR")]])]) ∧
    ¬ (∃ e ∈ svcAfter1.members "blocklist-1",
        getField e "address" = some "5.6.7.8") := by
  decide

/-- Claim C1 fails on the code: running
`AddMemberIfAbsent("blocklist-1", "5.6.7.8")` twice in sequence, the
second call still finds the address absent (the first call stored
`"(address)"` instead), so it issues another PATCH — not the no-op the
claim requires — and even after both calls no entry with address
`"5.6.7.8"` exists, while two junk `"(address)"` entries do. -/
theorem add_member_not_idempotent :
    (∃ r ∈ addCall2.2.2, r.method = Method.PATCH) ∧
    ((addCall2.2.1.members "blocklist-1").countP
      (fun e => getField e "address" == some "(address)")) = 2 ∧
    ¬ (∃ e ∈ addCall2.2.1.members "blocklist-1",
        getField e "address" = some "5.6.7.8") := by
  decide

/-- Claim C4 fails on the code: when the address is already a member the
command does issue no PATCH and leaves the collection unchanged, but it
raises TypeError — `get_address_set_members_command(client, id)`
supplies two of that function's three required positional parameters —
instead of returning the current member collection as a no-op result. -/
theorem add_member_noop_branch_raises :
    addCallNoop.1 = Except.error PyError.typeError ∧
    ¬ (∃ r ∈ addCallNoop.2.2, r.method = Method.PATCH) ∧
    addCallNoop.2.1.members "blocklist-1" = svcBlocklist.members "blocklist-1" := by
  decide

end Webscale
